import Mathlib

/-!
Verification of the directive-attachment subsystem of the m-labs RustPython
fork (nac3 config comments).  The definitions below are a shallow embedding
of `src/parser/src/config_comment_helper.rs` and, for the parts of the
repository that are not under `src/` (the token type, the lexer's comment
filter and the grammar plumbing that groups comments per statement), a model
built from the specification.  Rust `Vec` becomes `List`, `Option` stays
`Option`, `Result<_, ParseError<..>>` becomes `Except ParseError _`, and a
Rust panic (`unreachable!`, out-of-bounds index, `unwrap` of `None`) is
modelled as `Option.none` on the Lean side, distinct from the user-facing
`Except.error`.
-/

namespace RustPython

/-- Source location, as `rustpython_ast::Location` (row and column). -/
structure Location where
  row : Nat
  column : Nat
deriving DecidableEq, Repr

/-- Modelled from the spec: the textual rendering of a `Location` inside an
error message (the `Display` impl lives in the `ast` crate, which is not
under `src/`); the spec leaves it as the placeholder `{comment location}`,
so any fixed rendering of row and column is faithful. -/
def Location.render (l : Location) : String :=
  "line " ++ toString l.row ++ " column " ++ toString l.column

/-- `rustpython_ast::Ident` is a plain string. -/
abbrev Ident := String

/-- Modelled from the spec: the token type `crate::token::Tok` is not under
`src/`; per the spec each comment appears as its own token carrying raw text
and position, and no other token kind is ever inspected by the attachment
code, so they collapse to one constructor. -/
inductive Tok where
  | configComment (content : String) (loc : Location)
  | other
deriving DecidableEq, Repr

/-- `crate::error::LexicalErrorType`; only the `OtherError` variant is
constructed by the attachment code. -/
inductive LexicalErrorType where
  | otherError (msg : String)
deriving DecidableEq, Repr

/-- `crate::error::LexicalError`: a location together with the error kind. -/
structure LexicalError where
  location : Location
  error : LexicalErrorType
deriving DecidableEq, Repr

/-- `lalrpop_util::ParseError`; the attachment code only ever builds the
`User` variant, wrapping a `LexicalError`. -/
inductive ParseError where
  | user (error : LexicalError)
deriving DecidableEq, Repr

/-- `rustpython_ast::StmtKind`.  Expression payloads play no role in
directive attachment and are omitted; each simple-statement variant keeps
its `config_comment` slot exactly as in the source, and the compound
variants (the `_` arm of `apply_config_comments`) carry none. -/
inductive StmtKind where
  | pass (config_comment : List Ident)
  | delete (config_comment : List Ident)
  | expr (config_comment : List Ident)
  | assign (config_comment : List Ident)
  | augAssign (config_comment : List Ident)
  | annAssign (config_comment : List Ident)
  | breakStmt (config_comment : List Ident)
  | continueStmt (config_comment : List Ident)
  | returnStmt (config_comment : List Ident)
  | raiseStmt (config_comment : List Ident)
  | importStmt (config_comment : List Ident)
  | importFrom (config_comment : List Ident)
  | globalStmt (config_comment : List Ident)
  | nonlocalStmt (config_comment : List Ident)
  | assertStmt (config_comment : List Ident)
  | functionDef
  | asyncFunctionDef
  | classDef
  | forStmt
  | asyncFor
  | whileStmt
  | ifStmt
  | withStmt
  | asyncWith
  | tryStmt
deriving DecidableEq, Repr

/-- `rustpython_ast::Stmt<U>` is `Located<StmtKind>`; the `custom : U`
field is `()` throughout parsing and is omitted. -/
structure Stmt where
  location : Location
  node : StmtKind
deriving DecidableEq, Repr

/-- The directive slot of a statement: `some` of the `config_comment` list
for the fifteen simple-statement variants, `none` for compound variants. -/
def StmtKind.configComment? : StmtKind → Option (List Ident)
  | .pass cc => some cc
  | .delete cc => some cc
  | .expr cc => some cc
  | .assign cc => some cc
  | .augAssign cc => some cc
  | .annAssign cc => some cc
  | .breakStmt cc => some cc
  | .continueStmt cc => some cc
  | .returnStmt cc => some cc
  | .raiseStmt cc => some cc
  | .importStmt cc => some cc
  | .importFrom cc => some cc
  | .globalStmt cc => some cc
  | .nonlocalStmt cc => some cc
  | .assertStmt cc => some cc
  | _ => none

/-- Rewrite the directive slot of a simple-statement variant with `f`;
identity on compound variants. -/
def StmtKind.mapCC (f : List Ident → List Ident) : StmtKind → StmtKind
  | .pass cc => .pass (f cc)
  | .delete cc => .delete (f cc)
  | .expr cc => .expr (f cc)
  | .assign cc => .assign (f cc)
  | .augAssign cc => .augAssign (f cc)
  | .annAssign cc => .annAssign (f cc)
  | .breakStmt cc => .breakStmt (f cc)
  | .continueStmt cc => .continueStmt (f cc)
  | .returnStmt cc => .returnStmt (f cc)
  | .raiseStmt cc => .raiseStmt (f cc)
  | .importStmt cc => .importStmt (f cc)
  | .importFrom cc => .importFrom (f cc)
  | .globalStmt cc => .globalStmt (f cc)
  | .nonlocalStmt cc => .nonlocalStmt (f cc)
  | .assertStmt cc => .assertStmt (f cc)
  | k => k

/-- The `Vec` built from `nac3com_end` by
`map_or_else(|| vec![], |com| vec![com])` (and `map_or_else(Vec::new, ..)`
in `handle_small_stmt`): empty for `None`, a singleton for `Some`. -/
def endDirectives : Option Ident → List Ident
  | none => []
  | some com => [com]

/-- The alignment error message built by `make_config_comment`
(config_comment_helper.rs lines 19-23), verbatim from the `format!`. -/
def alignmentMessage (com_loc stmt_loc : Location) : String :=
  "config comment at top must have the same indentation with what it applies, comment at "
    ++ com_loc.render ++ ", statement at " ++ stmt_loc.render

/-- `make_config_comment` (config_comment_helper.rs lines 8-35): if the
comment column differs from the statement column, fail with a `User` error
carrying the comment location and the alignment message; otherwise return
the above-run identifiers in order, then the end identifier if present. -/
def make_config_comment (com_loc stmt_loc : Location)
    (nac3com_above : List (Ident × Tok)) (nac3com_end : Option Ident) :
    Except ParseError (List Ident) :=
  if com_loc.column ≠ stmt_loc.column then
    .error (.user ⟨com_loc, .otherError (alignmentMessage com_loc stmt_loc)⟩)
  else
    .ok (nac3com_above.map Prod.fst ++ endDirectives nac3com_end)

/-- `apply_config_comments` (config_comment_helper.rs lines 50-70): on the
fifteen simple-statement variants, `config_comment.extend(comments)`; the
`_` arm is `unreachable!`, i.e. a panic, modelled as `none`. -/
def apply_config_comments (stmt : Stmt) (comments : List Ident) : Option Stmt :=
  match stmt.node with
  | .pass cc => some ⟨stmt.location, .pass (cc ++ comments)⟩
  | .delete cc => some ⟨stmt.location, .delete (cc ++ comments)⟩
  | .expr cc => some ⟨stmt.location, .expr (cc ++ comments)⟩
  | .assign cc => some ⟨stmt.location, .assign (cc ++ comments)⟩
  | .augAssign cc => some ⟨stmt.location, .augAssign (cc ++ comments)⟩
  | .annAssign cc => some ⟨stmt.location, .annAssign (cc ++ comments)⟩
  | .breakStmt cc => some ⟨stmt.location, .breakStmt (cc ++ comments)⟩
  | .continueStmt cc => some ⟨stmt.location, .continueStmt (cc ++ comments)⟩
  | .returnStmt cc => some ⟨stmt.location, .returnStmt (cc ++ comments)⟩
  | .raiseStmt cc => some ⟨stmt.location, .raiseStmt (cc ++ comments)⟩
  | .importStmt cc => some ⟨stmt.location, .importStmt (cc ++ comments)⟩
  | .importFrom cc => some ⟨stmt.location, .importFrom (cc ++ comments)⟩
  | .globalStmt cc => some ⟨stmt.location, .globalStmt (cc ++ comments)⟩
  | .nonlocalStmt cc => some ⟨stmt.location, .nonlocalStmt (cc ++ comments)⟩
  | .assertStmt cc => some ⟨stmt.location, .assertStmt (cc ++ comments)⟩
  | _ => none

/-- `handle_small_stmt` (config_comment_helper.rs lines 37-48): write the
above-run identifiers into `stmts[0]` and the end identifier into
`stmts.last_mut().unwrap()`.  On the empty slice the Rust code panics
(`stmts[0]` is out of bounds and the `unwrap` is of `None`), modelled as
`none`; a panic inside `apply_config_comments` also propagates as `none`.
The second write observes the first (in Rust they mutate one slice), so the
last element is taken from the once-updated list. -/
def handle_small_stmt (stmts : List Stmt) (nac3com_above : List (Ident × Tok))
    (nac3com_end : Option Ident) : Option (List Stmt) :=
  match stmts with
  | [] => none
  | s0 :: rest =>
    match apply_config_comments s0 (nac3com_above.map Prod.fst) with
    | none => none
    | some s0' =>
      match apply_config_comments ((s0' :: rest).getLast (List.cons_ne_nil s0' rest))
          (endDirectives nac3com_end) with
      | none => none
      | some lastS => some ((s0' :: rest).dropLast ++ [lastS])

/-- Extend a statement's directive slot (identity on a compound variant);
the success branch of `apply_config_comments` in one step. -/
def Stmt.attachCC (s : Stmt) (cs : List Ident) : Stmt :=
  ⟨s.location, s.node.mapCC (fun l => l ++ cs)⟩

/-- Modelled from the spec: a raw comment token (text and position) as
produced by the tokenizer; `crate::lexer` is not under `src/`. -/
structure Comment where
  text : String
  location : Location
deriving DecidableEq, Repr

/-- Modelled from the spec: the comment filter of §4.1, implemented in the
missing lexer.  With the configured directive marker absent the filter
rejects every comment; otherwise it strips the comment's leading `#` and
checks whether the remainder starts with the exact configured string
(case-sensitive); on match the remainder after it, trimmed, is the
directive identifier. -/
def filterDirective (cfg : Option String) (c : Comment) : Option Ident :=
  match cfg with
  | none => none
  | some p =>
    let body := if c.text.startsWith "#" then c.text.drop 1 else c.text
    if body.startsWith p then some ((body.drop p.length).trim) else none

/-- Modelled from the spec: the comment group the accumulator (§4.2, in the
missing grammar actions) hands over for one statement: the raw comments of
the above-run and the optional raw end comment. -/
structure RawGroup where
  above : List Comment
  endc : Option Comment
deriving DecidableEq, Repr

/-- Modelled from the spec: the per-statement attachment step performed by
the grammar actions (not under `src/`).  The raw comments are filtered into
directives; with no above directive the optional end directive is attached
directly, and with a non-empty above-run the resolver
`make_config_comment` from the source is invoked with the first above
comment's location against the statement's location. -/
def attachOne (cfg : Option String) (g : RawGroup) (s : Stmt) :
    Except ParseError Stmt :=
  let aboveD : List (Ident × Location) :=
    g.above.filterMap fun c => (filterDirective cfg c).map fun i => (i, c.location)
  let endD : Option Ident := g.endc.bind fun c => filterDirective cfg c
  match aboveD with
  | [] =>
    match endD with
    | none => .ok s
    | some i => .ok (s.attachCC [i])
  | (_, loc0) :: _ =>
    (make_config_comment loc0 s.location
        (aboveD.map fun p => (p.1, Tok.configComment p.1 p.2)) endD).map s.attachCC

/-- Modelled from the spec: the directive-attachment content of one parse
(`parse` / `parse_program`, parser.rs lines 23-28 and 74-82, whose
tokenizing and grammar reduction live outside `src/`): every statement of
the program, in source order, paired with its accumulated comment group,
is resolved and attached; the first alignment error aborts the parse. -/
def parseWithDirectives (cfg : Option String) :
    List (RawGroup × Stmt) → Except ParseError (List Stmt)
  | [] => .ok []
  | gs :: rest =>
    match attachOne cfg gs.1 gs.2 with
    | .error err => .error err
    | .ok s =>
      match parseWithDirectives cfg rest with
      | .error err => .error err
      | .ok out => .ok (s :: out)

/-! ### Helper lemmas -/

lemma StmtKind.configComment?_mapCC (f : List Ident → List Ident) (k : StmtKind) :
    (k.mapCC f).configComment? = k.configComment?.map f := by
  cases k <;> rfl

lemma apply_config_comments_eq_none (s : Stmt) (cs : List Ident)
    (h : s.node.configComment? = none) :
    apply_config_comments s cs = none := by
  obtain ⟨loc, node⟩ := s
  cases node <;> simp_all [StmtKind.configComment?, apply_config_comments]

lemma apply_config_comments_eq_some (s : Stmt) (cs : List Ident) (old : List Ident)
    (h : s.node.configComment? = some old) :
    apply_config_comments s cs = some (s.attachCC cs) := by
  obtain ⟨loc, node⟩ := s
  cases node <;>
    simp_all [StmtKind.configComment?, apply_config_comments, Stmt.attachCC, StmtKind.mapCC]

lemma Stmt.configComment?_attachCC (s : Stmt) (cs : List Ident) :
    (s.attachCC cs).node.configComment? = s.node.configComment?.map (fun l => l ++ cs) := by
  simp [Stmt.attachCC, StmtKind.configComment?_mapCC]

lemma make_config_comment_eq_error (com_loc stmt_loc : Location)
    (above : List (Ident × Tok)) (e : Option Ident)
    (h : com_loc.column ≠ stmt_loc.column) :
    make_config_comment com_loc stmt_loc above e =
      .error (.user ⟨com_loc, .otherError (alignmentMessage com_loc stmt_loc)⟩) := by
  simp [make_config_comment, h]

lemma make_config_comment_eq_ok (com_loc stmt_loc : Location)
    (above : List (Ident × Tok)) (e : Option Ident)
    (h : com_loc.column = stmt_loc.column) :
    make_config_comment com_loc stmt_loc above e =
      .ok (above.map Prod.fst ++ endDirectives e) := by
  simp [make_config_comment, h]

lemma make_config_comment_ok_inv (com_loc stmt_loc : Location)
    (above : List (Ident × Tok)) (e : Option Ident) (l : List Ident)
    (h : make_config_comment com_loc stmt_loc above e = .ok l) :
    com_loc.column = stmt_loc.column ∧ l = above.map Prod.fst ++ endDirectives e := by
  by_cases hc : com_loc.column = stmt_loc.column
  · rw [make_config_comment_eq_ok _ _ _ _ hc] at h
    exact ⟨hc, (Except.ok.injEq _ _ ▸ h).symm⟩
  · rw [make_config_comment_eq_error _ _ _ _ hc] at h
    exact absurd h (by simp)

lemma handle_small_stmt_singleton (s : Stmt) (above : List (Ident × Tok))
    (e : Option Ident) (old : List Ident) (h : s.node.configComment? = some old) :
    handle_small_stmt [s] above e =
      some [(s.attachCC (above.map Prod.fst)).attachCC (endDirectives e)] := by
  have h1 := apply_config_comments_eq_some s (above.map Prod.fst) old h
  have h2 : (s.attachCC (above.map Prod.fst)).node.configComment? =
      some (old ++ above.map Prod.fst) := by
    rw [Stmt.configComment?_attachCC, h]; rfl
  have h3 := apply_config_comments_eq_some (s.attachCC (above.map Prod.fst))
    (endDirectives e) _ h2
  simp [handle_small_stmt, h1, h3]

lemma handle_small_stmt_cons (s0 r : Stmt) (rs : List Stmt)
    (above : List (Ident × Tok)) (e : Option Ident) (old0 oldL : List Ident)
    (h0 : s0.node.configComment? = some old0)
    (hL : ((r :: rs).getLast (List.cons_ne_nil r rs)).node.configComment? = some oldL) :
    handle_small_stmt (s0 :: r :: rs) above e =
      some (s0.attachCC (above.map Prod.fst) ::
        ((r :: rs).dropLast ++
          [((r :: rs).getLast (List.cons_ne_nil r rs)).attachCC (endDirectives e)])) := by
  have h1 := apply_config_comments_eq_some s0 (above.map Prod.fst) old0 h0
  have hlast : (s0.attachCC (above.map Prod.fst) :: r :: rs).getLast
      (List.cons_ne_nil _ _) = (r :: rs).getLast (List.cons_ne_nil r rs) :=
    List.getLast_cons (List.cons_ne_nil r rs)
  have h2 := apply_config_comments_eq_some ((r :: rs).getLast (List.cons_ne_nil r rs))
    (endDirectives e) _ hL
  simp only [handle_small_stmt, h1, hlast, h2, List.dropLast_cons₂, List.cons_append]

lemma filterDirective_none (c : Comment) : filterDirective none c = none := rfl

lemma attachOne_none (g : RawGroup) (s : Stmt) : attachOne none g s = .ok s := by
  have habove : g.above.filterMap
      (fun c => (filterDirective none c).map fun i => (i, c.location)) = [] :=
    List.filterMap_eq_nil_iff.mpr fun a _ => rfl
  have hend : g.endc.bind (fun c => filterDirective none c) = none := by
    cases g.endc <;> rfl
  simp only [attachOne, habove, hend]

lemma parseWithDirectives_none (prog : List (RawGroup × Stmt)) :
    parseWithDirectives none prog = .ok (prog.map Prod.snd) := by
  induction prog with
  | nil => rfl
  | cons p ps ih =>
    simp only [parseWithDirectives, attachOne_none, ih, List.map_cons]

/-! ### Claim theorems -/

/-- C1: whenever the comment column differs from the statement column,
`make_config_comment` returns an alignment error (not a directive list)
whose payload carries the comment's location and whose message is exactly
"config comment at top must have the same indentation with what it applies,
comment at {comment location}, statement at {statement location}"; the
caller receives `Except.error`, so no directive list (and hence no tree)
is produced from that call. -/
theorem make_config_comment_misaligned_error
    (com_loc stmt_loc : Location) (above : List (Ident × Tok)) (e : Option Ident)
    (h : com_loc.column ≠ stmt_loc.column) :
    make_config_comment com_loc stmt_loc above e =
      .error (.user ⟨com_loc, .otherError
        ("config comment at top must have the same indentation with what it applies, comment at "
          ++ com_loc.render ++ ", statement at " ++ stmt_loc.render)⟩) :=
  make_config_comment_eq_error com_loc stmt_loc above e h

/-- Witness for C1 at a concrete misaligned input (comment at column 4,
statement at column 0). -/
theorem make_config_comment_misaligned_error_witness :
    (Location.mk 1 4).column ≠ (Location.mk 2 0).column ∧
    make_config_comment ⟨1, 4⟩ ⟨2, 0⟩ [("unroll", .other)] none =
      .error (.user ⟨⟨1, 4⟩, .otherError
        ("config comment at top must have the same indentation with what it applies, comment at "
          ++ (Location.mk 1 4).render ++ ", statement at " ++ (Location.mk 2 0).render)⟩) :=
  ⟨by decide,
   make_config_comment_misaligned_error ⟨1, 4⟩ ⟨2, 0⟩ [("unroll", .other)] none (by decide)⟩

/-- C2: every successful result of `make_config_comment` is the above-run's
identifiers in their given order followed by the end identifier if present;
with an empty above-run and no end directive this is the empty list. -/
theorem make_config_comment_success_order
    (com_loc stmt_loc : Location) (above : List (Ident × Tok)) (e : Option Ident)
    (l : List Ident) (h : make_config_comment com_loc stmt_loc above e = .ok l) :
    l = above.map Prod.fst ++ endDirectives e :=
  (make_config_comment_ok_inv com_loc stmt_loc above e l h).2

/-- Witness for C2 at a concrete successful call with a two-directive
above-run and an end directive. -/
theorem make_config_comment_success_order_witness :
    make_config_comment ⟨1, 0⟩ ⟨2, 0⟩ [("a", .other), ("b", .other)] (some "c") =
        .ok ["a", "b", "c"] ∧
    (["a", "b", "c"] : List Ident) =
      [("a", Tok.other), ("b", Tok.other)].map Prod.fst ++ endDirectives (some "c") :=
  ⟨rfl,
   make_config_comment_success_order ⟨1, 0⟩ ⟨2, 0⟩ [("a", .other), ("b", .other)]
     (some "c") ["a", "b", "c"] rfl⟩

/-- C4 counterexample: the distributor path attaches a directive whose
comment token sits at column 4 to a statement at column 0, returns normally
and raises no failure of any kind — the claimed per-directive column
invariant is not enforced on this path. -/
theorem handle_small_stmt_attaches_misaligned_directive :
    (Location.mk 1 4).column ≠ (Location.mk 2 0).column ∧
    handle_small_stmt [⟨⟨2, 0⟩, .pass []⟩]
        [("flag", .configComment " nac3: flag" ⟨1, 4⟩)] none =
      some [⟨⟨2, 0⟩, .pass ["flag"]⟩] :=
  ⟨by decide, rfl⟩

/-- C4 amended: column alignment is enforced only on the resolver path, by
the single comparison of `com_loc` against `stmt_loc` in
`make_config_comment`, where violation is a hard parse error; the
distributor `handle_small_stmt` never inspects the directive comments'
locations — its result depends only on the identifiers — and can never
raise a column failure, and end directives' columns are compared on
neither path. -/
theorem column_alignment_enforced_only_in_resolver :
    (∀ (com_loc stmt_loc : Location) (above : List (Ident × Tok)) (e : Option Ident),
      com_loc.column ≠ stmt_loc.column →
        make_config_comment com_loc stmt_loc above e =
          .error (.user ⟨com_loc, .otherError (alignmentMessage com_loc stmt_loc)⟩)) ∧
    (∀ (stmts : List Stmt) (e : Option Ident) (above above' : List (Ident × Tok)),
      above.map Prod.fst = above'.map Prod.fst →
        handle_small_stmt stmts above e = handle_small_stmt stmts above' e) := by
  refine ⟨make_config_comment_eq_error, ?_⟩
  intro stmts e above above' hmap
  cases stmts with
  | nil => rfl
  | cons s0 rest => simp only [handle_small_stmt, hmap]

/-- Witness for the amended C4: a misaligned resolver call fails, and
moving an above comment from column 4 to column 9 leaves the distributor's
output unchanged. -/
theorem column_alignment_enforced_only_in_resolver_witness :
    make_config_comment ⟨1, 4⟩ ⟨2, 0⟩ [] none =
      .error (.user ⟨⟨1, 4⟩, .otherError (alignmentMessage ⟨1, 4⟩ ⟨2, 0⟩)⟩) ∧
    handle_small_stmt [⟨⟨2, 0⟩, .pass []⟩]
        [("flag", .configComment " nac3: flag" ⟨1, 4⟩)] none =
      handle_small_stmt [⟨⟨2, 0⟩, .pass []⟩]
        [("flag", .configComment " nac3: flag" ⟨1, 9⟩)] none :=
  ⟨column_alignment_enforced_only_in_resolver.1 ⟨1, 4⟩ ⟨2, 0⟩ [] none (by decide),
   column_alignment_enforced_only_in_resolver.2 [⟨⟨2, 0⟩, .pass []⟩] none
     [("flag", .configComment " nac3: flag" ⟨1, 4⟩)]
     [("flag", .configComment " nac3: flag" ⟨1, 9⟩)] rfl⟩

/-- C5 counterexample: a call to `make_config_comment` with an empty
above-run and mismatched columns still yields the alignment error — the
column comparison is not guarded by non-emptiness of the above-run. -/
theorem make_config_comment_empty_above_still_errors :
    make_config_comment ⟨1, 0⟩ ⟨1, 4⟩ [] none =
      .error (.user ⟨⟨1, 0⟩, .otherError (alignmentMessage ⟨1, 0⟩ ⟨1, 4⟩)⟩) :=
  rfl

/-- C5 amended: the column comparison in `make_config_comment` applies to
every call, also with an empty above-run: such a call succeeds (returning
just the end directives) exactly when the two columns agree, and yields the
alignment error whenever they differ. -/
theorem make_config_comment_empty_above_check
    (com_loc stmt_loc : Location) (e : Option Ident) :
    (com_loc.column = stmt_loc.column →
      make_config_comment com_loc stmt_loc [] e = .ok (endDirectives e)) ∧
    (com_loc.column ≠ stmt_loc.column →
      make_config_comment com_loc stmt_loc [] e =
        .error (.user ⟨com_loc, .otherError (alignmentMessage com_loc stmt_loc)⟩)) := by
  refine ⟨fun h => ?_, make_config_comment_eq_error com_loc stmt_loc [] e⟩
  simpa using make_config_comment_eq_ok com_loc stmt_loc [] e h

/-- Witness for the amended C5: with an empty above-run, aligned columns
succeed and misaligned columns error. -/
theorem make_config_comment_empty_above_check_witness :
    make_config_comment ⟨3, 2⟩ ⟨4, 2⟩ [] (some "unroll") =
      .ok (endDirectives (some "unroll")) ∧
    make_config_comment ⟨3, 2⟩ ⟨4, 5⟩ [] (some "unroll") =
      .error (.user ⟨⟨3, 2⟩, .otherError (alignmentMessage ⟨3, 2⟩ ⟨4, 5⟩)⟩) :=
  ⟨(make_config_comment_empty_above_check ⟨3, 2⟩ ⟨4, 2⟩ (some "unroll")).1 rfl,
   (make_config_comment_empty_above_check ⟨3, 2⟩ ⟨4, 5⟩ (some "unroll")).2 (by decide)⟩

/-- C6: invoking the directive-slot writer `apply_config_comments` on a
compound-statement variant (no directive slot, `configComment? = none`)
hits the `unreachable!` arm — a panic, modelled as `none`, distinct from
the user-facing `ParseError` channel — while on every simple-statement
variant it succeeds, appending the given identifiers to the slot. -/
theorem apply_config_comments_variant_discipline (s : Stmt) (cs : List Ident) :
    (s.node.configComment? = none → apply_config_comments s cs = none) ∧
    (∀ old, s.node.configComment? = some old →
      apply_config_comments s cs = some (s.attachCC cs) ∧
        (s.attachCC cs).node.configComment? = some (old ++ cs)) := by
  refine ⟨apply_config_comments_eq_none s cs, fun old h => ⟨apply_config_comments_eq_some s cs old h, ?_⟩⟩
  rw [Stmt.configComment?_attachCC, h]
  rfl

/-- Witness for C6: a `while` statement (compound) panics; an assignment
(simple) gets the identifier appended to its slot. -/
theorem apply_config_comments_variant_discipline_witness :
    apply_config_comments ⟨⟨1, 0⟩, .whileStmt⟩ ["x"] = none ∧
    (apply_config_comments ⟨⟨1, 0⟩, .assign ["a"]⟩ ["x"] =
        some ((⟨⟨1, 0⟩, .assign ["a"]⟩ : Stmt).attachCC ["x"]) ∧
      ((⟨⟨1, 0⟩, .assign ["a"]⟩ : Stmt).attachCC ["x"]).node.configComment? =
        some (["a"] ++ ["x"])) :=
  ⟨(apply_config_comments_variant_discipline ⟨⟨1, 0⟩, .whileStmt⟩ ["x"]).1 rfl,
   (apply_config_comments_variant_discipline ⟨⟨1, 0⟩, .assign ["a"]⟩ ["x"]).2 ["a"] rfl⟩

/-- C3: on a non-empty run of simple statements from one physical line,
all of whose directive slots start empty, `handle_small_stmt` succeeds and
puts the whole above-run (in order) into the first statement's slot, the
end directive (if present) into the last statement's slot, and leaves every
interior slot empty; on a one-statement run first and last coincide and the
slot receives the above-run followed by the end directive. -/
theorem handle_small_stmt_distribution
    (stmts : List Stmt) (above : List (Ident × Tok)) (e : Option Ident)
    (hne : stmts ≠ [])
    (hcc : ∀ s ∈ stmts, s.node.configComment? = some []) :
    ∃ out, handle_small_stmt stmts above e = some out ∧
      out.length = stmts.length ∧
      ∀ (i : Nat) (h : i < out.length),
        out[i].node.configComment? =
          some ((if i = 0 then above.map Prod.fst else []) ++
                (if i = stmts.length - 1 then endDirectives e else [])) := by
  match stmts, hne with
  | s0 :: rest, _ =>
    have h0 : s0.node.configComment? = some [] := hcc s0 (List.mem_cons_self s0 rest)
    match rest with
    | [] =>
      refine ⟨_, handle_small_stmt_singleton s0 above e [] h0, rfl, ?_⟩
      intro i h
      have hi : i = 0 := by
        simp only [List.length_singleton] at h
        omega
      subst hi
      simp [Stmt.configComment?_attachCC, h0]
    | r :: rs =>
      have hr : (r :: rs) ≠ [] := List.cons_ne_nil r rs
      have hL : ((r :: rs).getLast hr).node.configComment? = some [] :=
        hcc _ (List.mem_cons_of_mem s0 (List.getLast_mem hr))
      refine ⟨_, handle_small_stmt_cons s0 r rs above e [] [] h0 hL, ?_, ?_⟩
      · simp [List.length_dropLast]
      · intro i h
        have hlen : ((r :: rs).dropLast ++
            [((r :: rs).getLast hr).attachCC (endDirectives e)]).length = rs.length + 1 := by
          simp [List.length_dropLast]
        cases i with
        | zero =>
          have hnl : ¬ ((0 : Nat) = (s0 :: r :: rs).length - 1) := by
            simp only [List.length_cons]
            omega
          simp [Stmt.configComment?_attachCC, h0, hnl]
        | succ j =>
          have hj1 : j < rs.length + 1 := by
            rw [List.length_cons, hlen] at h
            omega
          rw [List.getElem_cons_succ]
          by_cases hj : j < rs.length
          · have hj' : j < (r :: rs).dropLast.length := by
              rw [List.length_dropLast]
              simpa using hj
            rw [List.getElem_append_left hj', List.getElem_dropLast]
            have hmem : (r :: rs)[j] ∈ s0 :: r :: rs :=
              List.mem_cons_of_mem s0 (List.getElem_mem _)
            have hjne : j ≠ rs.length := Nat.ne_of_lt hj
            simp [hcc _ hmem, hjne]
          · have hj2 : j = rs.length := by omega
            subst hj2
            rw [List.getElem_concat_length _ _ _ (by simp [List.length_dropLast])]
            simp [Stmt.configComment?_attachCC, hL]

/-- Witness for C3 at the spec's own example shape: three simple statements
on one line, a two-directive above-run and an end directive; the first slot
gets both above directives, the middle slot stays empty, the last slot gets
the end directive. -/
theorem handle_small_stmt_distribution_witness :
    ∃ out, handle_small_stmt
        [⟨⟨5, 0⟩, .assign []⟩, ⟨⟨5, 7⟩, .expr []⟩, ⟨⟨5, 14⟩, .assign []⟩]
        [("smallsingle1", .other), ("smallsingle3", .other)] (some "notif") = some out ∧
      out.length = ([⟨⟨5, 0⟩, .assign []⟩, ⟨⟨5, 7⟩, .expr []⟩,
        ⟨⟨5, 14⟩, .assign []⟩] : List Stmt).length ∧
      ∀ (i : Nat) (h : i < out.length),
        out[i].node.configComment? =
          some ((if i = 0 then
              [("smallsingle1", Tok.other), ("smallsingle3", Tok.other)].map Prod.fst
            else []) ++
            (if i = ([⟨⟨5, 0⟩, .assign []⟩, ⟨⟨5, 7⟩, .expr []⟩,
                ⟨⟨5, 14⟩, .assign []⟩] : List Stmt).length - 1 then
              endDirectives (some "notif")
            else [])) :=
  handle_small_stmt_distribution
    [⟨⟨5, 0⟩, .assign []⟩, ⟨⟨5, 7⟩, .expr []⟩, ⟨⟨5, 14⟩, .assign []⟩]
    [("smallsingle1", .other), ("smallsingle3", .other)] (some "notif")
    (by decide) (by decide)

/-- C7: with the directive marker absent (`none`), the attachment pass
accepts every program unchanged — whatever comments the source contains —
so no alignment error can occur, and every statement whose directive slot
started empty (as all grammar-built statements do) still has an empty
slot; compound statements carry no slot at all. -/
theorem parse_none_cfg_all_empty
    (prog : List (RawGroup × Stmt))
    (hinit : ∀ p ∈ prog,
      p.2.node.configComment? = none ∨ p.2.node.configComment? = some []) :
    ∃ out, parseWithDirectives none prog = .ok out ∧
      ∀ s ∈ out, s.node.configComment? = none ∨ s.node.configComment? = some [] := by
  refine ⟨prog.map Prod.snd, parseWithDirectives_none prog, ?_⟩
  intro s hs
  obtain ⟨p, hp, rfl⟩ := List.mem_map.mp hs
  exact hinit p hp

/-- Witness for C7: a program containing a directive-looking comment above
a misaligned statement still parses with `none` and the slot stays empty. -/
theorem parse_none_cfg_all_empty_witness :
    ∃ out, parseWithDirectives none
        [(⟨[⟨"# nac3: unroll", ⟨1, 4⟩⟩], some ⟨"# nac3: tail", ⟨2, 8⟩⟩⟩,
          ⟨⟨2, 0⟩, .pass []⟩)] = .ok out ∧
      ∀ s ∈ out, s.node.configComment? = none ∨ s.node.configComment? = some [] :=
  parse_none_cfg_all_empty
    [(⟨[⟨"# nac3: unroll", ⟨1, 4⟩⟩], some ⟨"# nac3: tail", ⟨2, 8⟩⟩⟩, ⟨⟨2, 0⟩, .pass []⟩)]
    (by decide)

/-- C8: parsing is deterministic: the whole attachment pipeline (and the
`parse` / `parse_program` plumbing of parser.rs, which builds a fresh
tokenizer and parser per call with no shared state) is a pure function of
the source-derived input and the configured marker, so two invocations on
the same input return identical results, directive attachments and errors
included. -/
theorem parseWithDirectives_deterministic
    (cfg : Option String) (prog : List (RawGroup × Stmt))
    (r1 r2 : Except ParseError (List Stmt))
    (h1 : r1 = parseWithDirectives cfg prog)
    (h2 : r2 = parseWithDirectives cfg prog) : r1 = r2 :=
  h1.trans h2.symm

/-- Witness for C8 at a concrete program with an attached directive. -/
theorem parseWithDirectives_deterministic_witness :
    parseWithDirectives (some " nac3:")
        [(⟨[⟨"# nac3: unroll", ⟨1, 0⟩⟩], none⟩, ⟨⟨2, 0⟩, .pass []⟩)] =
      parseWithDirectives (some " nac3:")
        [(⟨[⟨"# nac3: unroll", ⟨1, 0⟩⟩], none⟩, ⟨⟨2, 0⟩, .pass []⟩)] :=
  parseWithDirectives_deterministic (some " nac3:")
    [(⟨[⟨"# nac3: unroll", ⟨1, 0⟩⟩], none⟩, ⟨⟨2, 0⟩, .pass []⟩)] _ _ rfl rfl

/-- C9: `handle_small_stmt` requires a non-empty slice: on the empty slice
it panics (`stmts[0]` is out of bounds and the `unwrap` is of `None`),
modelled as `none`, while on every non-empty slice of simple statements it
returns normally. -/
theorem handle_small_stmt_empty_panics_nonempty_total :
    (∀ (above : List (Ident × Tok)) (e : Option Ident),
      handle_small_stmt [] above e = none) ∧
    (∀ (stmts : List Stmt) (above : List (Ident × Tok)) (e : Option Ident),
      stmts ≠ [] → (∀ s ∈ stmts, s.node.configComment?.isSome) →
        (handle_small_stmt stmts above e).isSome) := by
  refine ⟨fun above e => rfl, ?_⟩
  intro stmts above e hne hcc
  match stmts, hne with
  | [s], _ =>
    obtain ⟨old, h⟩ := Option.isSome_iff_exists.mp (hcc s (List.mem_singleton.mpr rfl))
    rw [handle_small_stmt_singleton s above e old h]
    rfl
  | s0 :: r :: rs, _ =>
    obtain ⟨old0, h0⟩ :=
      Option.isSome_iff_exists.mp (hcc s0 (List.mem_cons_self s0 (r :: rs)))
    obtain ⟨oldL, hL⟩ := Option.isSome_iff_exists.mp
      (hcc _ (List.mem_cons_of_mem s0 (List.getLast_mem (List.cons_ne_nil r rs))))
    rw [handle_small_stmt_cons s0 r rs above e old0 oldL h0 hL]
    rfl

/-- Witness for C9: the empty slice gives `none`; a singleton simple
statement returns normally. -/
theorem handle_small_stmt_empty_panics_nonempty_total_witness :
    handle_small_stmt [] [] none = none ∧
    (handle_small_stmt [⟨⟨1, 0⟩, .pass []⟩] [] none).isSome :=
  ⟨handle_small_stmt_empty_panics_nonempty_total.1 [] none,
   handle_small_stmt_empty_panics_nonempty_total.2 [⟨⟨1, 0⟩, .pass []⟩] [] none
     (by decide) (by decide)⟩

/-- C10: on a one-element slice holding a simple statement with an empty
directive slot, `handle_small_stmt` writes into that slot exactly the list
a successful `make_config_comment` returns for the same above-run and end
directive — the slot writer appends, and first and last coincide. -/
theorem handle_small_stmt_singleton_refines_resolver
    (s : Stmt) (above : List (Ident × Tok)) (e : Option Ident)
    (com_loc stmt_loc : Location) (l : List Ident)
    (hs : s.node.configComment? = some [])
    (hm : make_config_comment com_loc stmt_loc above e = .ok l) :
    ∃ s2, handle_small_stmt [s] above e = some [s2] ∧
      s2.node.configComment? = some l := by
  obtain ⟨-, rfl⟩ := make_config_comment_ok_inv com_loc stmt_loc above e l hm
  refine ⟨_, handle_small_stmt_singleton s above e [] hs, ?_⟩
  rw [Stmt.configComment?_attachCC, Stmt.configComment?_attachCC, hs]
  simp

/-- Witness for C10: a singleton expression statement receives exactly the
resolver's output `["a", "b"]`. -/
theorem handle_small_stmt_singleton_refines_resolver_witness :
    ∃ s2, handle_small_stmt [⟨⟨2, 0⟩, .expr []⟩] [("a", .other)] (some "b") =
        some [s2] ∧
      s2.node.configComment? = some ["a", "b"] :=
  handle_small_stmt_singleton_refines_resolver ⟨⟨2, 0⟩, .expr []⟩ [("a", .other)]
    (some "b") ⟨1, 0⟩ ⟨2, 0⟩ ["a", "b"] (by decide) rfl

end RustPython
